import Mathlib

/-!
# provider-dummy: the Post reconciliation adapter

A shallow embedding of `internal/controller/post/post.go`, `internal/model/post.go`
and `apis/jsonplaceholder/v1alpha1/post_types.go`.

* Go values that are mutated through a pointer (`cr *v1alpha1.Post`) are passed in and
  returned explicitly: every operation returns the managed resource as it is after the call.
* A Go pair `(value, error)` is a record with a `value` and an `err : Option Error`
  (`none` is Go's `nil` error).
* The remote HTTP endpoint is a function from the request that resty sends to either a
  transport error or a response; every operation also reports the list of requests it issued.
* `int64` values are `Int`; the range is stated where it matters.
-/

namespace ProviderDummy

/-! ## Errors (`github.com/pkg/errors`) -/

/-- Error values: `errors.New msg` and `errors.Wrap cause msg`. -/
inductive Error where
  | new (msg : String)
  | wrap (cause : Error) (msg : String)
  deriving DecidableEq, Repr

def errNotPost : String := "managed resource is not a Post custom resource"
def errTrackPCUsage : String := "cannot track ProviderConfig usage"
def errGetPC : String := "cannot get ProviderConfig"
def errGetCreds : String := "cannot get credentials"
def errNewClient : String := "cannot create new Service"

/-! ## `internal/model/post.go` -/

namespace model

/-- The wire model `model.Post`. -/
structure Post where
  ID : Int := 0
  Title : String := ""
  Body : String := ""
  UserId : Int := 0
  deriving DecidableEq, Repr

end model

/-! ## `apis/jsonplaceholder/v1alpha1/post_types.go` -/

namespace xpv1

/-- A status condition (`xpv1.Condition`, the transition time left out). -/
structure Condition where
  Type_ : String
  Status : String
  Reason : String
  Message : String := ""
  deriving DecidableEq, Repr

/-- The condition `xpv1.Available()`. -/
def Available : Condition :=
  { Type_ := "Ready", Status := "True", Reason := "Available" }

/-- One-condition `ConditionedStatus.SetConditions`: a condition of the same type is
replaced in place, and the condition is appended when no condition has its type. -/
def SetConditions (cs : List Condition) (c : Condition) : List Condition :=
  if cs.any (fun e => e.Type_ == c.Type_) then
    cs.map (fun e => if e.Type_ == c.Type_ then c else e)
  else cs ++ [c]

/-- A reference to another object by name (`xpv1.Reference`). -/
structure Reference where
  Name : String
  deriving DecidableEq, Repr

end xpv1

namespace v1alpha1

/-- The configurable fields of a Post. -/
structure PostParameters where
  Title : String := ""
  Body : String := ""
  UserID : Int := 0
  deriving DecidableEq, Repr

/-- The observable fields of a Post. -/
structure PostObservation where
  ObservableField : String := ""
  deriving DecidableEq, Repr

/-- The desired state: the inlined `xpv1.ResourceSpec` (its provider configuration
reference, a pointer that may be nil) and the provider parameters. -/
structure PostSpec where
  ProviderConfigReference : Option xpv1.Reference := none
  ForProvider : PostParameters := {}
  deriving DecidableEq, Repr

/-- The observed state: the inlined `xpv1.ResourceStatus` (its conditions) and `AtProvider`. -/
structure PostStatus where
  Conditions : List xpv1.Condition := []
  AtProvider : PostObservation := {}
  deriving DecidableEq, Repr

/-- The custom resource `v1alpha1.Post`; of its object metadata only the annotations,
a map from string to string held as an association list, are kept. -/
structure Post where
  Annotations : List (String × String) := []
  Spec : PostSpec := {}
  Status : PostStatus := {}
  deriving DecidableEq, Repr

/-- The generated getter `GetProviderConfigReference`. -/
def Post.GetProviderConfigReference (cr : Post) : Option xpv1.Reference :=
  cr.Spec.ProviderConfigReference

end v1alpha1

/-- A `resource.Managed` interface value: a `*v1alpha1.Post`, or a managed resource of
some other kind. -/
inductive Managed where
  | post (cr : v1alpha1.Post)
  | other (kind : String)
  deriving DecidableEq, Repr

/-! ## `crossplane-runtime/pkg/meta`: the external name annotation -/

namespace meta

def AnnotationKeyExternalName : String := "crossplane.io/external-name"

/-- Map lookup `m[k]`: the zero value `""` when the key is absent. -/
def mapGet (m : List (String × String)) (k : String) : String :=
  match m with
  | [] => ""
  | (k', v) :: rest => if k' = k then v else mapGet rest k

/-- Map assignment `m[k] = v`. -/
def mapSet (m : List (String × String)) (k v : String) : List (String × String) :=
  match m with
  | [] => [(k, v)]
  | (k', v') :: rest => if k' = k then (k, v) :: rest else (k', v') :: mapSet rest k v

/-- The function `meta.GetExternalName`. -/
def GetExternalName (cr : v1alpha1.Post) : String :=
  mapGet cr.Annotations AnnotationKeyExternalName

/-- The function `meta.SetExternalName`. -/
def SetExternalName (cr : v1alpha1.Post) (name : String) : v1alpha1.Post :=
  { cr with Annotations := mapSet cr.Annotations AnnotationKeyExternalName name }

end meta

/-! ## `strconv` and `fmt` -/

namespace strconv

/-- The digit loop of `formatBits` in base 10: digits are produced from the least
significant one, and at least one digit is written. -/
def formatBits (u : Nat) (neg : Bool) : String :=
  String.mk ((if neg then ['-'] else []) ++ Nat.toDigits 10 u)

/-- The call `strconv.FormatInt(i, 10)`: the magnitude of `i` in decimal, after a minus
sign when `i` is negative. -/
def FormatInt (i : Int) : String :=
  formatBits i.natAbs (decide (i < 0))

end strconv

/-! ## Decimal numerals, read back -/

/-- The value of a decimal digit. -/
def digitValue (c : Char) : Option Nat :=
  if '0' ≤ c ∧ c ≤ '9' then some (c.toNat - '0'.toNat) else none

/-- One step of reading a numeral from the left. -/
def readDigit (acc : Option Nat) (c : Char) : Option Nat :=
  match acc, digitValue c with
  | some v, some d => some (v * 10 + d)
  | _, _ => none

/-- The number that a run of decimal digits denotes, read from the left. -/
def readDigits (acc : Option Nat) (cs : List Char) : Option Nat :=
  cs.foldl readDigit acc

/-- What "the base-10 decimal string of n" means, read from the string's side: the integer
that a string denotes as a non-empty run of decimal digits, or as a minus sign and a
non-empty run of decimal digits. -/
def decimalValue (s : String) : Option Int :=
  match s.data with
  | [] => none
  | c :: cs =>
    match readDigits (some 0) (c :: cs) with
    | some v => some (v : Int)
    | none =>
      if c = '-' ∧ cs ≠ [] then (readDigits (some 0) cs).map (fun v => -(v : Int)) else none

namespace strings

/-- The function `strings.TrimRight`: the string without the trailing characters that
occur in the cutset. -/
def TrimRight (s cutset : String) : String :=
  String.mk (s.data.reverse.dropWhile (fun c => cutset.data.contains c)).reverse

end strings

namespace fmt

/-- The call `fmt.Sprint(a, b)` on two string operands: no space is put between operands
when either is a string, so the result is the concatenation. -/
def Sprint (a b : String) : String := a ++ b

end fmt

/-- The range of Go's `int64`. -/
def isInt64 (n : Int) : Prop := -(2 ^ 63) ≤ n ∧ n < 2 ^ 63

instance (n : Int) : Decidable (isInt64 n) := by
  unfold isInt64; exact inferInstance

/-! ## `resty`: requests, responses, the remote endpoint -/

namespace resty

/-- A request as built by `client.R()...`: the verb, the client's base URL, the URL given
to `Get`/`Post`/`Delete`, the body given to `SetBody`, and whether `SetResult(model.Post{})`
was called. -/
structure Request where
  Method : String
  BaseURL : String
  URL : String
  Body : Option model.Post := none
  Result : Bool := false
  deriving DecidableEq, Repr

/-- A response: its status code and `Result()`, the `*model.Post` that resty decoded the
body into (the zero `model.Post` when nothing was decoded). -/
structure Response where
  StatusCode : Int
  Result : model.Post := {}
  deriving DecidableEq, Repr

/-- The client `resty.Client`, reduced to the base URL it is bound to. -/
structure Client where
  BaseURL : String := ""
  deriving DecidableEq, Repr

/-- The method `Client.SetBaseURL`: the URL is stored without its trailing slashes, as
`strings.TrimRight(url, "/")`. -/
def Client.SetBaseURL (c : Client) (url : String) : Client :=
  { c with BaseURL := strings.TrimRight url "/" }

end resty

/-- The remote endpoint as seen through resty: a transport error, or a response. -/
abbrev Remote := resty.Request → Except Error resty.Response

/-! ## `crossplane-runtime/pkg/reconciler/managed`: result values -/

namespace managed

/-- The map `managed.ConnectionDetails`: `none` is the nil map. -/
abbrev ConnectionDetails := Option (List (String × String))

structure ExternalObservation where
  ResourceExists : Bool := false
  ResourceUpToDate : Bool := false
  ConnectionDetails : ConnectionDetails := none
  deriving DecidableEq, Repr

structure ExternalCreation where
  ConnectionDetails : ConnectionDetails := none
  deriving DecidableEq, Repr

structure ExternalUpdate where
  ConnectionDetails : ConnectionDetails := none
  deriving DecidableEq, Repr

end managed

/-- What a call leaves behind: the returned value and error, the managed resource after
the call, and the HTTP requests that were issued, in order. -/
structure Outcome (α : Type) where
  value : α
  err : Option Error
  mg : Managed
  requests : List resty.Request

/-! ## `internal/controller/post/post.go` -/

/-- The stub `isPostUpToDate`. -/
def isPostUpToDate (_cr : v1alpha1.Post) (_response : model.Post) : Bool :=
  true

/-- The type `external`: the client used to reach the external resource API. -/
structure external where
  client : resty.Client
  deriving DecidableEq, Repr

namespace external

/-- The request built by `Observe`. -/
def observeRequest (c : external) (cr : v1alpha1.Post) : resty.Request :=
  { Method := "GET", BaseURL := c.client.BaseURL,
    URL := fmt.Sprint "/posts/" (meta.GetExternalName cr), Result := true }

/-- The method `external.Observe`. -/
def Observe (c : external) (remote : Remote) (mg : Managed) :
    Outcome managed.ExternalObservation :=
  match mg with
  | .other _ => ⟨{}, some (.new errNotPost), mg, []⟩
  | .post cr =>
    let req := observeRequest c cr
    match remote req with
    | .error err => ⟨{}, some err, mg, [req]⟩
    | .ok r =>
      if r.StatusCode = 404 then
        ⟨{ ResourceExists := false }, none, mg, [req]⟩
      else
        let cr' : v1alpha1.Post :=
          { cr with Status := { cr.Status with
              Conditions := xpv1.SetConditions cr.Status.Conditions xpv1.Available } }
        ⟨{ ResourceExists := true,
           ResourceUpToDate := isPostUpToDate cr' r.Result,
           ConnectionDetails := some [] }, none, .post cr', [req]⟩

/-- The request built by `Create`. -/
def createRequest (c : external) (cr : v1alpha1.Post) : resty.Request :=
  { Method := "POST", BaseURL := c.client.BaseURL, URL := "/posts",
    Body := some { Title := cr.Spec.ForProvider.Title,
                   Body := cr.Spec.ForProvider.Body,
                   UserId := cr.Spec.ForProvider.UserID },
    Result := true }

/-- The method `external.Create`. -/
def Create (c : external) (remote : Remote) (mg : Managed) :
    Outcome managed.ExternalCreation :=
  match mg with
  | .other _ => ⟨{}, some (.new errNotPost), mg, []⟩
  | .post cr =>
    let req := createRequest c cr
    match remote req with
    | .error err => ⟨{}, some err, mg, [req]⟩
    | .ok r =>
      let cr' := meta.SetExternalName cr (strconv.FormatInt r.Result.ID)
      ⟨{ ConnectionDetails := some [] }, none, .post cr', [req]⟩

/-- The method `external.Update` (its line on standard output is not part of the model). -/
def Update (_c : external) (mg : Managed) : Outcome managed.ExternalUpdate :=
  match mg with
  | .other _ => ⟨{}, some (.new errNotPost), mg, []⟩
  | .post _ => ⟨{ ConnectionDetails := some [] }, none, mg, []⟩

/-- The request built by `Delete`. -/
def deleteRequest (c : external) (cr : v1alpha1.Post) : resty.Request :=
  { Method := "DELETE", BaseURL := c.client.BaseURL,
    URL := fmt.Sprint "/post/" (meta.GetExternalName cr) }

/-- The method `external.Delete`: the response is dropped and the error of the call is
returned as it is. -/
def Delete (c : external) (remote : Remote) (mg : Managed) : Outcome Unit :=
  match mg with
  | .other _ => ⟨(), some (.new errNotPost), mg, []⟩
  | .post cr =>
    let req := deleteRequest c cr
    match remote req with
    | .error err => ⟨(), some err, mg, [req]⟩
    | .ok _ => ⟨(), none, mg, [req]⟩

end external

/-! ## `connector.Connect` -/

namespace apisv1alpha1

/-- The provider configuration, reduced to the endpoint of its spec. -/
structure ProviderConfigSpec where
  Endpoint : String
  deriving DecidableEq, Repr

structure ProviderConfig where
  Spec : ProviderConfigSpec
  deriving DecidableEq, Repr

end apisv1alpha1

/-- The type `connector`: `kube.Get` of a provider configuration by name, `usage.Track`,
and the function that makes a fresh resty client. -/
structure connector where
  kube : String → Except Error apisv1alpha1.ProviderConfig
  usage : Managed → Option Error
  newClientFn : Unit → resty.Client

/-- The method `connector.Connect`. The result is `none` when the call does not return:
`cr.GetProviderConfigReference().Name` on a nil reference is a nil pointer dereference (the
tracker that `Setup` installs fails on a nil reference, so with it this point is not
reached; `usage` here is any tracker). The returned value is `none` for a nil
`managed.ExternalClient`. -/
def connector.Connect (c : connector) (mg : Managed) : Option (Outcome (Option external)) :=
  match mg with
  | .other _ => some ⟨none, some (.new errNotPost), mg, []⟩
  | .post cr =>
    match c.usage mg with
    | some err => some ⟨none, some (.wrap err errTrackPCUsage), mg, []⟩
    | none =>
      match cr.GetProviderConfigReference with
      | none => none
      | some ref =>
        match c.kube ref.Name with
        | .error err => some ⟨none, some (.wrap err errGetPC), mg, []⟩
        | .ok pc =>
          let svc := (c.newClientFn ()).SetBaseURL pc.Spec.Endpoint
          some ⟨some { client := svc }, none, mg, []⟩

/-! ## The wire format of `model.Post` (`encoding/json` on its struct tags) -/

namespace json

/-- A JSON value as far as the fields of `model.Post` tell values apart: `number` is an
integer literal, `other` is any value that neither a string nor an `int64` field accepts
(a number with a fraction or exponent, an array, an object). -/
inductive Value where
  | null
  | bool (b : Bool)
  | number (n : Int)
  | string (s : String)
  | other
  deriving DecidableEq, Repr

/-- A JSON object: its members in order. -/
abbrev Object := List (String × Value)

/-- The first value held by a key of an object. -/
def Object.get (o : Object) (k : String) : Option Value :=
  match o with
  | [] => none
  | (k', v) :: rest => if k' = k then some v else Object.get rest k

/-- Simple case folding of one character towards ASCII lower case: the orbits of the ASCII
letters, which besides the two cases hold U+017F (with `s`) and U+212A (with `k`). -/
def foldRune (c : Char) : Char :=
  if c = Char.ofNat 0x17F then 's'
  else if c = Char.ofNat 0x212A then 'k'
  else c.toLower

/-- Case-insensitive match of an object key against an ASCII field name, as the decoder
does when it looks up the field of a key. -/
def equalFold (key name : String) : Bool :=
  key.data.map foldRune == name.data.map foldRune

end json

namespace model

/-- The encoding of a `model.Post` by `json.Marshal`: the tags are `id,omitempty`, `tirle`,
`body` and `userId`, and a field tagged `omitempty` is left out when it is zero. -/
def Post.Marshal (p : Post) : json.Object :=
  (if p.ID = 0 then [] else [("id", json.Value.number p.ID)]) ++
  [("tirle", json.Value.string p.Title),
   ("body", json.Value.string p.Body),
   ("userId", json.Value.number p.UserId)]

/-- Decoding a value into an `int64` field: `null` leaves the field as it is, an integer in
range is stored, anything else is a type error that leaves the field as it is. -/
def decodeInt64 (old : Int) (v : json.Value) : Int × Bool :=
  match v with
  | .null => (old, true)
  | .number n => if -(2 ^ 63) ≤ n ∧ n < 2 ^ 63 then (n, true) else (old, false)
  | _ => (old, false)

/-- Decoding a value into a `string` field. -/
def decodeString (old : String) (v : json.Value) : String × Bool :=
  match v with
  | .null => (old, true)
  | .string s => (s, true)
  | _ => (old, false)

/-- One member of the object decoded into the record: the field is found by its tag name,
case-insensitively, and a key that names no field is skipped. The flag is false on a type
error. -/
def Post.setMember (p : Post) (key : String) (v : json.Value) : Post × Bool :=
  if json.equalFold key "id" then
    ({ p with ID := (decodeInt64 p.ID v).1 }, (decodeInt64 p.ID v).2)
  else if json.equalFold key "tirle" then
    ({ p with Title := (decodeString p.Title v).1 }, (decodeString p.Title v).2)
  else if json.equalFold key "body" then
    ({ p with Body := (decodeString p.Body v).1 }, (decodeString p.Body v).2)
  else if json.equalFold key "userId" then
    ({ p with UserId := (decodeInt64 p.UserId v).1 }, (decodeInt64 p.UserId v).2)
  else (p, true)

/-- The decoding of an object into a `model.Post` by `json.Unmarshal`: members are taken in
order, a later member overwrites an earlier one; the flag is false when some member was a
type error (the decoder goes on and reports the error at the end). -/
def Post.Unmarshal (p : Post) (o : json.Object) : Post × Bool :=
  match o with
  | [] => (p, true)
  | (k, v) :: rest =>
    let r := Post.setMember p k v
    let r' := Post.Unmarshal r.1 rest
    (r'.1, r.2 && r'.2)

end model

/-- The external name of a managed resource that is a Post. -/
def Managed.externalName (mg : Managed) : Option String :=
  match mg with
  | .post cr => some (meta.GetExternalName cr)
  | .other _ => none

/-! ## Concrete inputs -/

/-- A connection handle bound to the JSONPlaceholder endpoint. -/
def sampleClient : external :=
  { client := { BaseURL := "https://jsonplaceholder.typicode.com" } }

/-- The desired resource of the scenario: title "hello", body "world", user 1. -/
def helloPost : v1alpha1.Post :=
  { Spec := { ProviderConfigReference := some { Name := "default" },
              ForProvider := { Title := "hello", Body := "world", UserID := 1 } } }

/-- The same resource once bound to the remote object 101. -/
def boundPost : v1alpha1.Post :=
  meta.SetExternalName helloPost "101"

/-- A remote endpoint that answers every request with the given status and result. -/
def answering (code : Int) (result : model.Post) : Remote :=
  fun _ => .ok { StatusCode := code, Result := result }

/-- A remote endpoint that cannot be reached. -/
def failing (e : Error) : Remote :=
  fun _ => .error e

/-- A connector whose cluster holds the one provider configuration "default", with the given
endpoint and the given result of usage tracking. -/
def sampleConnector (endpoint : String) (track : Option Error) : connector :=
  { kube := fun name =>
      if name = "default" then .ok { Spec := { Endpoint := endpoint } }
      else .error (.new "providerconfig not found"),
    usage := fun _ => track,
    newClientFn := fun _ => {} }

end ProviderDummy

/-! ## Properties -/

namespace ProviderDummy

open external

/-! ### Helper lemmas -/

theorem meta.mapGet_mapSet (m : List (String × String)) (k v : String) :
    meta.mapGet (meta.mapSet m k v) k = v := by
  induction m with
  | nil => simp [meta.mapSet, meta.mapGet]
  | cons kv rest ih =>
    obtain ⟨k', v'⟩ := kv
    by_cases h : k' = k
    · simp [meta.mapSet, meta.mapGet, h]
    · simp [meta.mapSet, meta.mapGet, h, ih]

theorem meta.GetExternalName_SetExternalName (cr : v1alpha1.Post) (name : String) :
    meta.GetExternalName (meta.SetExternalName cr name) = name := by
  simp [meta.GetExternalName, meta.SetExternalName, meta.mapGet_mapSet]

/-- The one request of `Observe` on a Post is its GET. -/
theorem Observe_requests (c : external) (remote : Remote) (cr : v1alpha1.Post) :
    (Observe c remote (.post cr)).requests = [observeRequest c cr] := by
  simp only [Observe]
  cases remote (observeRequest c cr) with
  | error e => rfl
  | ok r => by_cases h4 : r.StatusCode = 404 <;> simp [h4]

/-- The one request of `Create` on a Post is its POST. -/
theorem Create_requests (c : external) (remote : Remote) (cr : v1alpha1.Post) :
    (Create c remote (.post cr)).requests = [createRequest c cr] := by
  simp only [Create]
  cases remote (createRequest c cr) <;> rfl

/-- The one request of `Delete` on a Post is its DELETE. -/
theorem Delete_requests (c : external) (remote : Remote) (cr : v1alpha1.Post) :
    (Delete c remote (.post cr)).requests = [deleteRequest c cr] := by
  simp only [Delete]
  cases remote (deleteRequest c cr) <;> rfl

/-! ### `strconv.FormatInt` writes decimal numerals -/

theorem digitValue_digitChar (k : Nat) (hk : k < 10) :
    digitValue (Nat.digitChar k) = some k := by
  interval_cases k <;> rfl

theorem readDigits_none (cs : List Char) : readDigits none cs = none := by
  induction cs with
  | nil => rfl
  | cons c cs ih => simpa [readDigits, readDigit] using ih

theorem readDigit_digitChar (a k : Nat) (hk : k < 10) :
    readDigit (some a) (Nat.digitChar k) = some (a * 10 + k) := by
  simp [readDigit, digitValue_digitChar k hk]

theorem readDigits_toDigitsCore (fuel : Nat) :
    ∀ n ds, n < fuel →
      readDigits (some 0) (Nat.toDigitsCore 10 fuel n ds) = readDigits (some n) ds := by
  induction fuel with
  | zero => intro n ds h; omega
  | succ fuel ih =>
    intro n ds h
    have hlt : n % 10 < 10 := Nat.mod_lt _ (by norm_num)
    simp only [Nat.toDigitsCore]
    by_cases h0 : n / 10 = 0
    · simp only [h0, if_true]
      have hn : 0 * 10 + n % 10 = n := by omega
      rw [readDigits, List.foldl_cons, readDigit_digitChar _ _ hlt, hn]
      rfl
    · simp only [h0, if_false]
      have hn : n / 10 * 10 + n % 10 = n := by omega
      rw [ih (n / 10) _ (by omega), readDigits, List.foldl_cons,
        readDigit_digitChar _ _ hlt, hn]
      rfl

theorem toDigitsCore_ne_nil (fuel : Nat) :
    ∀ n ds, (0 < fuel ∨ ds ≠ []) → Nat.toDigitsCore 10 fuel n ds ≠ [] := by
  induction fuel with
  | zero => intro n ds h; simpa [Nat.toDigitsCore] using h
  | succ fuel ih =>
    intro n ds _
    simp only [Nat.toDigitsCore]
    by_cases h0 : n / 10 = 0
    · simp [h0]
    · simp only [h0, if_false]
      exact ih _ _ (Or.inr (by simp))

theorem readDigits_toDigits (n : Nat) : readDigits (some 0) (Nat.toDigits 10 n) = some n := by
  rw [Nat.toDigits, readDigits_toDigitsCore _ _ _ (Nat.lt_succ_self n)]
  rfl

theorem toDigits_ne_nil (n : Nat) : Nat.toDigits 10 n ≠ [] :=
  toDigitsCore_ne_nil _ _ _ (Or.inl (Nat.succ_pos n))

/-- Reading back what `FormatInt` writes gives the integer that was formatted. -/
theorem decimalValue_FormatInt (i : Int) :
    decimalValue (strconv.FormatInt i) = some i := by
  by_cases hneg : i < 0
  · have hds := readDigits_toDigits i.natAbs
    have hne := toDigits_ne_nil i.natAbs
    have hminus : readDigits (some 0) ('-' :: Nat.toDigits 10 i.natAbs) = none := by
      have : readDigit (some 0) '-' = none := by decide
      simp only [readDigits, List.foldl_cons, this]
      exact readDigits_none _
    simp only [decimalValue, strconv.FormatInt, strconv.formatBits, hneg, decide_True, if_true,
      List.singleton_append, hminus]
    have e : -|i| = i := by rw [abs_of_neg hneg, neg_neg]
    simp [hne, hds, e]
  · have hds := readDigits_toDigits i.natAbs
    have hne := toDigits_ne_nil i.natAbs
    simp only [decimalValue, strconv.FormatInt, strconv.formatBits, hneg, decide_False, List.nil_append]
    cases hl : Nat.toDigits 10 i.natAbs with
    | nil => exact absurd hl hne
    | cons c cs =>
      rw [hl] at hds
      have e : ((i.natAbs : Int)) = i := by omega
      simp [hds, e]

/-! ### Create -/

/-- C1: when the POST of `Create` returns a response (no transport error) whose decoded
result carries the `int64` id `n`, `Create` returns no error and the external name of the
resource afterwards is `strconv.FormatInt n` in base 10, a string that reads back as the
decimal numeral of `n`. -/
theorem create_binds_external_name (c : external) (remote : Remote) (cr : v1alpha1.Post)
    (r : resty.Response) (n : Int) (_hn : isInt64 n)
    (hok : remote (createRequest c cr) = .ok r) (hid : r.Result.ID = n) :
    (Create c remote (.post cr)).err = none ∧
    (Create c remote (.post cr)).value = { ConnectionDetails := some [] } ∧
    (Create c remote (.post cr)).mg.externalName = some (strconv.FormatInt n) ∧
    decimalValue (strconv.FormatInt n) = some n := by
  simp [Create, hok, hid, Managed.externalName, meta.GetExternalName_SetExternalName,
    decimalValue_FormatInt]

/-- The scenario of C1: the remote answers the POST with id 101 and the external name
becomes "101". -/
theorem create_binds_external_name_witness :
    isInt64 101 ∧
    (Create sampleClient (answering 201 { ID := 101 }) (.post helloPost)).err = none ∧
    (Create sampleClient (answering 201 { ID := 101 }) (.post helloPost)).mg.externalName
      = some "101" := by
  have h := create_binds_external_name sampleClient (answering 201 { ID := 101 }) helloPost
    { StatusCode := 201, Result := { ID := 101 } } 101 (by decide) rfl rfl
  exact ⟨by decide, h.1, h.2.2.1.trans (by decide)⟩

/-! ### Observe -/

/-- C2: when the GET of `Observe` returns a response (no transport error) with status 404,
`Observe` returns no error and an observation with `ResourceExists = false`; the resource is
left as it was. -/
theorem observe_not_found (c : external) (remote : Remote) (cr : v1alpha1.Post)
    (r : resty.Response) (hok : remote (observeRequest c cr) = .ok r)
    (h404 : r.StatusCode = 404) :
    (Observe c remote (.post cr)).err = none ∧
    (Observe c remote (.post cr)).value.ResourceExists = false ∧
    (Observe c remote (.post cr)).mg = .post cr := by
  simp [Observe, hok, h404]

/-- C2 at a bound resource whose remote object is gone. -/
theorem observe_not_found_witness :
    (Observe sampleClient (answering 404 {}) (.post boundPost)).err = none ∧
    (Observe sampleClient (answering 404 {}) (.post boundPost)).value.ResourceExists = false :=
  have h := observe_not_found sampleClient (answering 404 {}) boundPost
    { StatusCode := 404 } rfl rfl
  ⟨h.1, h.2.1⟩

/-- C3: `Observe` issues its GET against "/posts/" followed by the external name, while
`Delete` issues its DELETE against "/post/" followed by the external name; for a resource
whose external name is "101" that is `DELETE /post/101`, not the path `/posts/101` that
`Observe` addresses. -/
theorem delete_path_differs_from_observe_path (c : external) (remote : Remote)
    (cr : v1alpha1.Post) :
    (Observe c remote (.post cr)).requests.map (fun q => (q.Method, q.URL))
      = [("GET", "/posts/" ++ meta.GetExternalName cr)] ∧
    (Delete c remote (.post cr)).requests.map (fun q => (q.Method, q.URL))
      = [("DELETE", "/post/" ++ meta.GetExternalName cr)] ∧
    meta.GetExternalName boundPost = "101" ∧
    (Observe sampleClient remote (.post boundPost)).requests.map (fun q => q.URL)
      = ["/posts/101"] ∧
    (Delete sampleClient remote (.post boundPost)).requests.map (fun q => q.URL)
      = ["/post/101"] ∧
    (Delete sampleClient remote (.post boundPost)).requests.map (fun q => q.URL)
      ≠ (Observe sampleClient remote (.post boundPost)).requests.map (fun q => q.URL) := by
  simp only [Observe_requests, Delete_requests]
  refine ⟨rfl, rfl, ?_, ?_, ?_, ?_⟩ <;> decide

/-- C4: for the desired fields title "hello", body "world", user 1, the body that `Create`
sends serialises with the key "tirle", and has no key "title"; and decoding the response
object `{id: 101, title: "hello", body: "world", userId: 1}` leaves `Title` empty. -/
theorem wire_model_title_key :
    (createRequest sampleClient helloPost).Body.map model.Post.Marshal
      = some [("tirle", .string "hello"), ("body", .string "world"), ("userId", .number 1)] ∧
    ((createRequest sampleClient helloPost).Body.map model.Post.Marshal).bind
      (fun o => o.get "title") = none ∧
    model.Post.Unmarshal {} [("id", .number 101), ("title", .string "hello"),
        ("body", .string "world"), ("userId", .number 1)]
      = ({ ID := 101, Title := "", Body := "world", UserId := 1 }, true) := by
  decide

/-- C5, as stated, fails: a GET answered with status 500 (neither 2xx nor 404, no transport
error) makes `Observe` return no error and an observation that says the resource exists. -/
theorem observe_server_error_is_not_an_error :
    (answering 500 {} (observeRequest sampleClient boundPost)
      = .ok { StatusCode := 500, Result := {} }) ∧
    ¬ ((200 : Int) ≤ 500 ∧ (500 : Int) < 300) ∧ (500 : Int) ≠ 404 ∧
    (Observe sampleClient (answering 500 {}) (.post boundPost)).err = none ∧
    (Observe sampleClient (answering 500 {}) (.post boundPost)).value.ResourceExists = true :=
  ⟨rfl, by decide, by decide, by decide, by decide⟩

/-- C5, amended: `Observe` returns an error exactly when the GET fails with a transport
error, and then it is that error; when the GET returns a response whose status is not 404,
success code or not, `Observe` returns no error and an observation with
`ResourceExists = true`. -/
theorem observe_error_iff_transport_error (c : external) (remote : Remote)
    (cr : v1alpha1.Post) :
    (∀ e, (Observe c remote (.post cr)).err = some e ↔
        remote (observeRequest c cr) = .error e) ∧
    (∀ r, remote (observeRequest c cr) = .ok r → r.StatusCode ≠ 404 →
        (Observe c remote (.post cr)).err = none ∧
        (Observe c remote (.post cr)).value.ResourceExists = true) := by
  constructor
  · intro e
    simp only [Observe]
    cases h : remote (observeRequest c cr) with
    | error e' => simp
    | ok r => by_cases h4 : r.StatusCode = 404 <;> simp [h4]
  · intro r hok h4
    simp [Observe, hok, h4]

/-- The amended C5 at status 500 and at an unreachable remote. -/
theorem observe_error_iff_transport_error_witness :
    (Observe sampleClient (answering 500 {}) (.post boundPost)).err = none ∧
    (Observe sampleClient (answering 500 {}) (.post boundPost)).value.ResourceExists = true ∧
    (Observe sampleClient (failing (.new "connection refused")) (.post boundPost)).err
      = some (.new "connection refused") :=
  have h := (observe_error_iff_transport_error sampleClient (answering 500 {}) boundPost).2
    { StatusCode := 500 } rfl (by decide)
  have h' := ((observe_error_iff_transport_error sampleClient
    (failing (.new "connection refused")) boundPost).1 (.new "connection refused")).2 rfl
  ⟨h.1, h.2, h'⟩

/-- C6: the desired title is "hello" and the GET returns status 200 with title "bye", body
"other" and user 7, none of which matches; `Observe` still reports `ResourceUpToDate = true`. -/
theorem observe_up_to_date_ignores_fields :
    helloPost.Spec.ForProvider.Title ≠ "bye" ∧
    (Observe sampleClient (answering 200 { ID := 101, Title := "bye", Body := "other", UserId := 7 })
        (.post boundPost)).err = none ∧
    (Observe sampleClient (answering 200 { ID := 101, Title := "bye", Body := "other", UserId := 7 })
        (.post boundPost)).value.ResourceUpToDate = true := by
  decide

/-! ### Delete -/

/-- C7: when the DELETE of `Delete` is answered with status 404 and no transport error,
`Delete` returns no error; and so does a second `Delete` on the resource that a first
`Delete` (against any remote behaviour) left behind, when the remote then answers 404. -/
theorem delete_not_found_is_success (c : external) (first second : Remote)
    (cr : v1alpha1.Post) (r : resty.Response)
    (hok : second (deleteRequest c cr) = .ok r) (_h404 : r.StatusCode = 404) :
    (Delete c second (.post cr)).err = none ∧
    (Delete c first (.post cr)).mg = .post cr ∧
    (Delete c second (Delete c first (.post cr)).mg).err = none := by
  have hmg : (Delete c first (.post cr)).mg = .post cr := by
    simp only [Delete]
    cases first (deleteRequest c cr) <;> rfl
  refine ⟨?_, hmg, ?_⟩
  · simp [Delete, hok]
  · rw [hmg]; simp [Delete, hok]

/-- C7 at a bound resource: the first call deletes (status 200), the second finds the
remote object gone (status 404). -/
theorem delete_not_found_is_success_witness :
    (Delete sampleClient (answering 404 {})
      (Delete sampleClient (answering 200 {}) (.post boundPost)).mg).err = none :=
  (delete_not_found_is_success sampleClient (answering 200 {}) (answering 404 {}) boundPost
    { StatusCode := 404 } rfl rfl).2.2

/-! ### Errors of the transport -/

/-- C8: if the HTTP call of `Observe`, of `Create` or of `Delete` fails with the transport
error `e`, the operation returns exactly `e`; `Observe` and `Create` return it with the
zero result value. -/
theorem transport_error_returned_unchanged (c : external) (remote : Remote)
    (cr : v1alpha1.Post) (e : Error) :
    (remote (observeRequest c cr) = .error e →
      (Observe c remote (.post cr)).err = some e ∧
      (Observe c remote (.post cr)).value = {}) ∧
    (remote (createRequest c cr) = .error e →
      (Create c remote (.post cr)).err = some e ∧
      (Create c remote (.post cr)).value = {}) ∧
    (remote (deleteRequest c cr) = .error e →
      (Delete c remote (.post cr)).err = some e) := by
  refine ⟨?_, ?_, ?_⟩ <;> intro h
  · simp [Observe, h]
  · simp [Create, h]
  · simp [Delete, h]

/-- C8 at an unreachable remote. -/
theorem transport_error_returned_unchanged_witness :
    (Observe sampleClient (failing (.new "connection refused")) (.post boundPost)).err
      = some (.new "connection refused") ∧
    (Create sampleClient (failing (.new "connection refused")) (.post helloPost)).err
      = some (.new "connection refused") ∧
    (Delete sampleClient (failing (.new "connection refused")) (.post boundPost)).err
      = some (.new "connection refused") :=
  have h := transport_error_returned_unchanged sampleClient
    (failing (.new "connection refused")) boundPost (.new "connection refused")
  have h' := transport_error_returned_unchanged sampleClient
    (failing (.new "connection refused")) helloPost (.new "connection refused")
  ⟨(h.1 rfl).1, (h'.2.1 rfl).1, h.2.2 rfl⟩

/-! ### The external name -/

/-- C9, as stated, fails: a POST answered with status 500 and no decoded body (no transport
error) makes `Create` rebind a resource whose external name is "101" to "0". -/
theorem create_rebinds_on_server_error :
    (Managed.post boundPost).externalName = some "101" ∧
    ¬ ((200 : Int) ≤ 500 ∧ (500 : Int) < 300) ∧
    (Create sampleClient (answering 500 {}) (.post boundPost)).err = none ∧
    (Create sampleClient (answering 500 {}) (.post boundPost)).mg.externalName = some "0" := by
  decide

/-- C9, amended: `Observe`, `Update` and `Delete` leave the external name as it was before
the call, whatever the remote does, and so does `Create` when its POST fails with a
transport error. -/
theorem external_name_frame (c : external) (remote : Remote) (cr : v1alpha1.Post) :
    (Observe c remote (.post cr)).mg.externalName = some (meta.GetExternalName cr) ∧
    (Update c (.post cr)).mg.externalName = some (meta.GetExternalName cr) ∧
    (Delete c remote (.post cr)).mg.externalName = some (meta.GetExternalName cr) ∧
    (∀ e, remote (createRequest c cr) = .error e →
      (Create c remote (.post cr)).mg.externalName = some (meta.GetExternalName cr)) := by
  refine ⟨?_, ?_, ?_, ?_⟩
  · simp only [Observe]
    cases remote (observeRequest c cr) with
    | error e => rfl
    | ok r => by_cases h4 : r.StatusCode = 404 <;> simp [h4, Managed.externalName,
        meta.GetExternalName]
  · rfl
  · simp only [Delete]
    cases remote (deleteRequest c cr) <;> rfl
  · intro e h
    simp [Create, h, Managed.externalName]

/-- The amended C9 at a bound resource: the name stays "101". -/
theorem external_name_frame_witness :
    (Observe sampleClient (answering 200 {}) (.post boundPost)).mg.externalName = some "101" ∧
    (Create sampleClient (failing (.new "connection refused"))
      (.post boundPost)).mg.externalName = some "101" :=
  have h := external_name_frame sampleClient (answering 200 {}) boundPost
  have h' := (external_name_frame sampleClient (failing (.new "connection refused"))
    boundPost).2.2.2 (.new "connection refused") rfl
  ⟨h.1.trans (by decide), h'.trans (by decide)⟩

/-! ### Connect -/

/-- Trimming trailing slashes leaves a string that does not end in a slash as it is. -/
theorem strings.TrimRight_slash_of_no_trailing_slash (s : String)
    (h : s.data.reverse.head? ≠ some '/') : strings.TrimRight s "/" = s := by
  have hd : s.data.reverse.dropWhile (fun c => ("/" : String).data.contains c)
      = s.data.reverse := by
    cases hr : s.data.reverse with
    | nil => rfl
    | cons c cs =>
      rw [hr] at h
      have hc : c ≠ '/' := fun e => h (by simp [e])
      simp [List.dropWhile, hc]
  simp only [strings.TrimRight, hd, List.reverse_reverse]

/-- C10, as stated, fails: for a provider configuration whose endpoint is
"https://jsonplaceholder.typicode.com/", tracking and fetching succeed and `Connect` returns
a handle whose base URL is "https://jsonplaceholder.typicode.com", which is not the
endpoint. -/
theorem connect_trims_endpoint :
    ∃ o h, (sampleConnector "https://jsonplaceholder.typicode.com/" none).Connect
        (.post helloPost) = some o ∧
      o.err = none ∧ o.value = some h ∧
      h.client.BaseURL = "https://jsonplaceholder.typicode.com" ∧
      h.client.BaseURL ≠ "https://jsonplaceholder.typicode.com/" :=
  ⟨_, _, rfl, rfl, rfl, by decide, by decide⟩

/-- C10, amended: `Connect` on a Post issues no HTTP request. If usage tracking fails with
`e`, it returns `errors.Wrap e "cannot track ProviderConfig usage"` and no handle. Otherwise,
for the provider configuration that the resource names: if fetching it fails with `e`, it
returns `errors.Wrap e "cannot get ProviderConfig"` and no handle; if it is fetched, it
returns no error and a handle whose base URL is the endpoint of that configuration without
its trailing slashes, which is the endpoint itself when it does not end in a slash. -/
theorem connect_outcomes (c : connector) (cr : v1alpha1.Post) :
    (∀ o, c.Connect (.post cr) = some o → o.requests = []) ∧
    (∀ e, c.usage (.post cr) = some e →
      ∃ o, c.Connect (.post cr) = some o ∧ o.value = none ∧
        o.err = some (.wrap e "cannot track ProviderConfig usage")) ∧
    (∀ ref e, c.usage (.post cr) = none → cr.GetProviderConfigReference = some ref →
      c.kube ref.Name = .error e →
      ∃ o, c.Connect (.post cr) = some o ∧ o.value = none ∧
        o.err = some (.wrap e "cannot get ProviderConfig")) ∧
    (∀ ref pc, c.usage (.post cr) = none → cr.GetProviderConfigReference = some ref →
      c.kube ref.Name = .ok pc →
      ∃ o h, c.Connect (.post cr) = some o ∧ o.err = none ∧ o.value = some h ∧
        h.client.BaseURL = strings.TrimRight pc.Spec.Endpoint "/" ∧
        (pc.Spec.Endpoint.data.reverse.head? ≠ some '/' →
          h.client.BaseURL = pc.Spec.Endpoint)) := by
  refine ⟨?_, ?_, ?_, ?_⟩
  · intro o ho
    simp only [connector.Connect] at ho
    split at ho
    · simp at ho; subst ho; rfl
    · split at ho
      · simp at ho
      · split at ho
        · simp at ho; subst ho; rfl
        · simp at ho; subst ho; rfl
  · intro e he
    simp [connector.Connect, he, errTrackPCUsage]
  · intro ref e hu href hk
    simp [connector.Connect, hu, href, hk, errGetPC]
  · intro ref pc hu href hk
    refine ⟨⟨some ⟨(c.newClientFn ()).SetBaseURL pc.Spec.Endpoint⟩, none, .post cr, []⟩,
      ⟨(c.newClientFn ()).SetBaseURL pc.Spec.Endpoint⟩, ?_, rfl, rfl, rfl, fun hs => ?_⟩
    · simp only [connector.Connect, hu, href, hk]
    · exact strings.TrimRight_slash_of_no_trailing_slash _ hs

/-- The amended C10 at the scenario resource: with the configuration "default" in place
the handle is bound to its endpoint, with or without a trailing slash in the configuration;
when tracking fails the tracking error comes back wrapped; when the resource names a
configuration that is not there the fetch error comes back wrapped. -/
theorem connect_outcomes_witness :
    (∃ o h, (sampleConnector "https://jsonplaceholder.typicode.com" none).Connect
        (.post helloPost) = some o ∧ o.err = none ∧
      o.value = some h ∧ h.client.BaseURL = "https://jsonplaceholder.typicode.com") ∧
    (∃ o h, (sampleConnector "https://jsonplaceholder.typicode.com/" none).Connect
        (.post helloPost) = some o ∧ o.err = none ∧
      o.value = some h ∧ h.client.BaseURL = "https://jsonplaceholder.typicode.com") ∧
    (∃ o, (sampleConnector "https://jsonplaceholder.typicode.com"
        (some (.new "conflict"))).Connect (.post helloPost) = some o ∧
      o.value = none ∧
      o.err = some (.wrap (.new "conflict") "cannot track ProviderConfig usage")) ∧
    (∃ o, (sampleConnector "https://jsonplaceholder.typicode.com" none).Connect
        (.post { helloPost with Spec := { helloPost.Spec with
          ProviderConfigReference := some { Name := "absent" } } }) = some o ∧
      o.value = none ∧
      o.err = some (.wrap (.new "providerconfig not found") "cannot get ProviderConfig")) := by
  refine ⟨?_, ?_, ?_, ?_⟩
  · obtain ⟨o, h, ho, he, hv, _, hb⟩ :=
      (connect_outcomes (sampleConnector "https://jsonplaceholder.typicode.com" none)
        helloPost).2.2.2 { Name := "default" }
        { Spec := { Endpoint := "https://jsonplaceholder.typicode.com" } } rfl rfl rfl
    exact ⟨o, h, ho, he, hv, hb (by decide)⟩
  · obtain ⟨o, h, ho, he, hv, hb, _⟩ :=
      (connect_outcomes (sampleConnector "https://jsonplaceholder.typicode.com/" none)
        helloPost).2.2.2 { Name := "default" }
        { Spec := { Endpoint := "https://jsonplaceholder.typicode.com/" } } rfl rfl rfl
    exact ⟨o, h, ho, he, hv, hb.trans (by decide)⟩
  · exact (connect_outcomes (sampleConnector "https://jsonplaceholder.typicode.com"
      (some (.new "conflict"))) helloPost).2.1 (.new "conflict") rfl
  · exact (connect_outcomes (sampleConnector "https://jsonplaceholder.typicode.com" none)
      _).2.2.1 { Name := "absent" } (.new "providerconfig not found") rfl rfl rfl

end ProviderDummy
